import Mathlib

/-!
# Verification of the BME280 temperature-sensor service

A shallow embedding of `src/temp_sensor.py`. Python's float (IEEE-754 double)
arithmetic is modelled by exact rational arithmetic over `ℚ`; Python machine
integers are `Nat`/`Int`; the I2C bus and HTTP transport are modelled by
explicit oracle arguments (`Option` for a read that may fault, `Bool` for an
HTTP outcome). Python's `int(x)` conversion truncates toward zero, embedded
here as `truncQ`.
-/

namespace TempSensor

/-- Python's `int(x)` applied to a float: truncation toward zero
(floor for non-negative arguments, ceiling for negative ones). -/
def truncQ (q : ℚ) : ℤ := if q < 0 then ⌈q⌉ else ⌊q⌋

theorem truncQ_of_nonneg (q : ℚ) (h : 0 ≤ q) : truncQ q = ⌊q⌋ := by
  simp [truncQ, not_lt.mpr h]

theorem truncQ_of_neg (q : ℚ) (h : q < 0) : truncQ q = ⌈q⌉ := by
  simp [truncQ, h]

/-! ## Register codec (`read_unsigned_short`, `read_signed_short`)

A bus read of two bytes either faults (`none`) or yields the byte pair
`(data[0], data[1])`.  On a fault the Python code catches the exception,
logs, and returns `0`. -/

/-- `read_unsigned_short` from `temp_sensor.py`: decode two bytes as an
unsigned 16-bit integer; a transport fault yields `0`. -/
def read_unsigned_short (data : Option (Nat × Nat)) (little_endian : Bool) : Nat :=
  match data with
  | none => 0
  | some (b0, b1) =>
      if little_endian then b0 + (b1 <<< 8) else (b0 <<< 8) ||| b1

/-- `read_signed_short` from `temp_sensor.py`: decode two bytes as an
unsigned 16-bit integer, subtract 65536 when the value reaches 32768;
a transport fault yields `0`. -/
def read_signed_short (data : Option (Nat × Nat)) (little_endian : Bool) : Int :=
  match data with
  | none => 0
  | some (b0, b1) =>
      let val : Nat := if little_endian then b0 + (b1 <<< 8) else (b0 <<< 8) ||| b1
      if val < 32768 then (val : Int) else (val : Int) - 65536

/-! ## Calibration loader (`read_calibration_data`) -/

/-- Temperature calibration triple `(dig_T1, dig_T2, dig_T3)`. -/
structure TempCalib where
  T1 : ℤ
  T2 : ℤ
  T3 : ℤ
deriving DecidableEq, Repr

/-- Humidity calibration sextuple `(dig_H1, …, dig_H6)`. -/
structure HumCalib where
  H1 : ℤ
  H2 : ℤ
  H3 : ℤ
  H4 : ℤ
  H5 : ℤ
  H6 : ℤ
deriving DecidableEq, Repr

/-- The full coefficient set returned by `read_calibration_data`. -/
structure Calib where
  T : TempCalib
  H : HumCalib
deriving DecidableEq, Repr

/-- `dig_H4 = (e4 << 4) | (e5 & 0x0F)` — line 146 of `temp_sensor.py`. -/
def dig_H4_decode (e4 e5 : Nat) : Nat := (e4 <<< 4) ||| (e5 &&& 0x0F)

/-- `dig_H5 = (e6 << 4) | (e5 >> 4)` — line 147 of `temp_sensor.py`. -/
def dig_H5_decode (e5 e6 : Nat) : Nat := (e6 <<< 4) ||| (e5 >>> 4)

/-- Two's-complement adjustment of `dig_H6`:
`if dig_H6 > 127: dig_H6 -= 256` — lines 150–151. -/
def dig_H6_adjust (raw : Nat) : Int :=
  if raw > 127 then (raw : Int) - 256 else (raw : Int)

/-- The successful branch of `read_calibration_data`, given the raw register
values its bus reads produced: the temperature triple, the plain humidity
bytes/shorts, the packed registers `e4 e5 e6`, and the raw `dig_H6` byte. -/
def read_calibration_data (dig_T1 : Nat) (dig_T2 dig_T3 : Int)
    (dig_H1 : Nat) (dig_H2 : Int) (dig_H3 : Nat)
    (e4 e5 e6 : Nat) (h6raw : Nat) : Calib :=
  { T := ⟨dig_T1, dig_T2, dig_T3⟩
    H := ⟨dig_H1, dig_H2, dig_H3,
          dig_H4_decode e4 e5, dig_H5_decode e5 e6, dig_H6_adjust h6raw⟩ }

/-- The fallback coefficient set returned when any calibration read raises
— lines 163–166. -/
def default_calibration : Calib :=
  { T := ⟨27504, 26435, -1000⟩, H := ⟨75, 360, 0, 300, 50, 30⟩ }

/-! ## Compensation engine -/

/-- `compensate_temperature` from `temp_sensor.py` (lines 180–191), with
float arithmetic modelled over `ℚ` and Python's `int(...)` as `truncQ`.
Returns `(temperature_c, t_fine)`. -/
def compensate_temperature (raw_temp : Nat) (c : TempCalib) : ℚ × ℤ :=
  let var1 : ℚ := ((raw_temp : ℚ) / 16384 - (c.T1 : ℚ) / 1024) * (c.T2 : ℚ)
  let var2 : ℚ := (((raw_temp : ℚ) / 131072 - (c.T1 : ℚ) / 8192) ^ 2) * (c.T3 : ℚ)
  let t_fine : ℤ := truncQ (var1 + var2)
  ((t_fine : ℚ) / 5120, t_fine)

/-- `compensate_humidity` from `temp_sensor.py` (lines 193–211): the nested
polynomial correction clamped into `[0, 100]`, with the degenerate branch
returning `0` when `t_fine - 76800 = 0`. -/
def compensate_humidity (raw_hum : Nat) (c : HumCalib) (t_fine : ℤ) : ℚ :=
  let var_h : ℚ := (t_fine : ℚ) - 76800
  if var_h = 0 then 0
  else
    let v1 : ℚ := ((raw_hum : ℚ) - ((c.H4 : ℚ) * 64 + (c.H5 : ℚ) / 16384 * var_h)) *
      ((c.H2 : ℚ) / 65536 * (1 + (c.H6 : ℚ) / 67108864 * var_h *
        (1 + (c.H3 : ℚ) / 67108864 * var_h)))
    let v2 : ℚ := v1 * (1 - (c.H1 : ℚ) * v1 / 524288)
    max 0 (min 100 v2)

/-- `calculate_heat_index` from `temp_sensor.py` (lines 213–228): pass the
temperature through below 26 °C, otherwise the NOAA nine-term polynomial. -/
def calculate_heat_index (temperature humidity : ℚ) : ℚ :=
  if temperature < 26 then temperature
  else
    let T := temperature
    let R := humidity
    363445176/1000000000 + 988622465/1000000000 * T + 818478/100000000 * R
      + 144105/1000000000 * T * R - 54777/1000000000 * T^2 - 121227/100000000 * R^2
      + 38646/1000000000 * T^2 * R + 29039/1000000000 * T * R^2
      - 187/100000000 * T^2 * R^2

/-- Modelled from the spec: the reference computation of the fixed NOAA
nine-term heat-index polynomial in `(T, R)`, against which the code's
above-threshold branch is compared. -/
def noaa_heat_index_reference (T R : ℚ) : ℚ :=
  363445176/1000000000 + 988622465/1000000000 * T + 818478/100000000 * R
    + 144105/1000000000 * T * R - 54777/1000000000 * T^2 - 121227/100000000 * R^2
    + 38646/1000000000 * T^2 * R + 29039/1000000000 * T * R^2
    - 187/100000000 * T^2 * R^2

/-! ## Acquisition loop (`read_raw_data`, the body of `update_sensor_data`) -/

/-- One published measurement: the `sensor_data` dictionary written by
`update_sensor_data`. -/
structure Reading where
  temperature : ℚ
  humidity : ℚ
  heat_index : ℚ
deriving DecidableEq, Repr

/-- `read_raw_data` from `temp_sensor.py` (lines 168–178): an 8-byte burst read
either faults (`none`, Python's except branch returning `(0, 0, 0)`) or yields
8 bytes that are bit-packed into the raw triple `(temp_raw, press_raw, hum_raw)`. -/
def read_raw_data (data : Option (List Nat)) : Nat × Nat × Nat :=
  match data with
  | none => (0, 0, 0)
  | some d =>
      let press_raw := (d.getD 0 0 <<< 12) ||| (d.getD 1 0 <<< 4) ||| (d.getD 2 0 >>> 4)
      let temp_raw := (d.getD 3 0 <<< 12) ||| (d.getD 4 0 <<< 4) ||| (d.getD 5 0 >>> 4)
      let hum_raw := (d.getD 6 0 <<< 8) ||| d.getD 7 0
      (temp_raw, press_raw, hum_raw)

/-- The compensation pipeline applied to one raw sample (lines 341–355):
temperature, then humidity (fed `t_fine`), then heat index. -/
def process_sample (c : Calib) (temp_raw hum_raw : Nat) : Reading :=
  let tr := compensate_temperature temp_raw c.T
  let temperature := tr.1
  let t_fine := tr.2
  let humidity := compensate_humidity hum_raw c.H t_fine
  let heat_index := calculate_heat_index temperature humidity
  ⟨temperature, humidity, heat_index⟩

/-- One iteration of the sampling loop of `update_sensor_data`
(lines 331–355), up to the publish: given the decoded raw triple and the
current shared reading, return the shared reading afterwards and whether a
new `Reading` was published this cycle.  The sentinel test is line 336:
`temp_raw in [0x80000, 0xFFFFF] or hum_raw in [0x8000, 0xFFFF]`. -/
def cycle_step (c : Calib) (raw : Nat × Nat × Nat) (cur : Option Reading) :
    Option Reading × Bool :=
  let temp_raw := raw.1
  let hum_raw := raw.2.2
  if temp_raw = 0x80000 ∨ temp_raw = 0xFFFFF ∨ hum_raw = 0x8000 ∨ hum_raw = 0xFFFF then
    (cur, false)
  else
    (some (process_sample c temp_raw hum_raw), true)

/-! ## Cloud sync (`send_to_tuya` and the periodic push in `update_sensor_data`)

The HTTP side is modelled by oracles: `refresh_result` is what a
`get_tuya_token` call would produce (`none` when the token request fails,
`some (token, expiry)` when it succeeds and stores a new token), and
`push_ok` is whether the command POST comes back HTTP 200 with a true
success flag. -/

/-- The module-level token state `(TUYA_ACCESS_TOKEN, TUYA_TOKEN_EXPIRY)`. -/
structure TuyaState where
  access_token : Option String
  token_expiry : ℚ
deriving DecidableEq, Repr

/-- Everything observable about one `send_to_tuya` call: its boolean return
value, the token state afterwards, how many token-refresh requests it issued,
and the command payload of every POST it issued. -/
structure SyncOutcome where
  ok : Bool
  state : TuyaState
  refresh_attempts : Nat
  pushed : List (List (String × ℤ))
deriving DecidableEq, Repr

/-- One fixed-point command value: `int(metric * 10)` — lines 281–283. -/
def tuya_value (metric : ℚ) : ℤ := truncQ (metric * 10)

/-- The `commands` list built by `send_to_tuya` (lines 280–284), against the
data-point identifiers `"101"`, `"102"`, `"103"`. -/
def build_commands (temperature humidity heat_index : ℚ) : List (String × ℤ) :=
  [("101", tuya_value temperature),
   ("102", tuya_value humidity),
   ("103", tuya_value heat_index)]

/-- `send_to_tuya` from `temp_sensor.py` (lines 266–317).  A refresh is
attempted exactly when no token is held or `now` has passed the stored
expiry; a failed refresh returns `False` before any POST; otherwise the one
command POST is issued and its success flag is the return value. -/
def send_to_tuya (st : TuyaState) (now : ℚ)
    (refresh_result : Option (String × ℚ)) (push_ok : Bool)
    (temperature humidity heat_index : ℚ) : SyncOutcome :=
  if st.access_token = none ∨ now > st.token_expiry then
    match refresh_result with
    | none => ⟨false, st, 1, []⟩
    | some (tok, expiry) =>
        let st' : TuyaState := ⟨some tok, expiry⟩
        ⟨push_ok, st', 1, [build_commands temperature humidity heat_index]⟩
  else
    ⟨push_ok, st, 0, [build_commands temperature humidity heat_index]⟩

/-- The `last_tuya_update` bookkeeping of `update_sensor_data`
(lines 360–365): advanced to `now` only when `send_to_tuya` returned `True`. -/
def update_last_push (last now : ℚ) (ok : Bool) : ℚ :=
  if ok then now else last

/-! ## Signature function (`generate_signature`)

`hmac.new(secret, msg, hashlib.sha256).hexdigest().upper()` is embedded as an
executable SHA-256 / HMAC over byte lists (`Nat` values below 256). -/

/-- 32-bit wrap-around addition. -/
def add32 (a b : Nat) : Nat := (a + b) % 4294967296

/-- 32-bit right rotation (arguments below `2^32`). -/
def rotr32 (w n : Nat) : Nat := ((w >>> n) ||| (w <<< (32 - n))) % 4294967296

/-- SHA-256 choice function (the complement taken inside 32 bits). -/
def ch32 (u v w : Nat) : Nat := (u &&& v) ^^^ ((u ^^^ 0xFFFFFFFF) &&& w)

/-- SHA-256 majority function. -/
def maj32 (u v w : Nat) : Nat := (u &&& v) ^^^ (u &&& w) ^^^ (v &&& w)

/-- SHA-256 Σ₀. -/
def bigSigma0 (x : Nat) : Nat := rotr32 x 2 ^^^ rotr32 x 13 ^^^ rotr32 x 22

/-- SHA-256 Σ₁. -/
def bigSigma1 (x : Nat) : Nat := rotr32 x 6 ^^^ rotr32 x 11 ^^^ rotr32 x 25

/-- SHA-256 σ₀. -/
def smallSigma0 (x : Nat) : Nat := rotr32 x 7 ^^^ rotr32 x 18 ^^^ (x >>> 3)

/-- SHA-256 σ₁. -/
def smallSigma1 (x : Nat) : Nat := rotr32 x 17 ^^^ rotr32 x 19 ^^^ (x >>> 10)

/-- The 64 SHA-256 round constants of FIPS 180-4 (decimal). -/
def K256 : List Nat :=
  [1116352408, 1899447441, 3049323471, 3921009573, 961987163, 1508970993,
   2453635748, 2870763221, 3624381080, 310598401, 607225278, 1426881987,
   1925078388, 2162078206, 2614888103, 3248222580, 3835390401, 4022224774,
   264347078, 604807628, 770255983, 1249150122, 1555081692, 1996064986,
   2554220882, 2821834349, 2952996808, 3210313671, 3336571891, 3584528711,
   113926993, 338241895, 666307205, 773529912, 1294757372, 1396182291,
   1695183700, 1986661051, 2177026350, 2456956037, 2730485921, 2820302411,
   3259730800, 3345764771, 3516065817, 3600352804, 4094571909, 275423344,
   430227734, 506948616, 659060556, 883997877, 958139571, 1322822218,
   1537002063, 1747873779, 1955562222, 2024104815, 2227730452, 2361852424,
   2428436474, 2756734187, 3204031479, 3329325298]

/-- A 64-bit length as 8 big-endian bytes. -/
def be64 (n : Nat) : List Nat :=
  [(n >>> 56) % 256, (n >>> 48) % 256, (n >>> 40) % 256, (n >>> 32) % 256,
   (n >>> 24) % 256, (n >>> 16) % 256, (n >>> 8) % 256, n % 256]

/-- SHA-256 padding: append `0x80`, zero bytes up to 56 mod 64, then the
bit length as 8 big-endian bytes. -/
def sha_pad (msg : List Nat) : List Nat :=
  msg ++ 0x80 :: List.replicate ((119 - msg.length % 64) % 64) 0 ++ be64 (8 * msg.length)

/-- Big-endian 32-bit words from a byte list (groups of 4, Horner form). -/
def toWords : List Nat → List Nat
  | b0 :: b1 :: b2 :: b3 :: rest =>
      ((((b0 <<< 8 ||| b1) <<< 8) ||| b2) <<< 8 ||| b3) :: toWords rest
  | _ => []

/-- Split a byte list into 64-byte chunks. -/
def chunks64 : List Nat → List (List Nat)
  | [] => []
  | b :: rest => ((b :: rest).take 64) :: chunks64 ((b :: rest).drop 64)
termination_by l => l.length
decreasing_by
  simp only [List.length_drop]
  exact Nat.sub_lt (by simp) (by norm_num)

/-- Extend the 16 words of a block to the 64-word message schedule. -/
def extendSchedule (w : Array Nat) : Array Nat :=
  (List.range 48).foldl (fun a i =>
    a.push (add32 (add32 (smallSigma1 (a.getD (i + 14) 0)) (a.getD (i + 9) 0))
                  (add32 (smallSigma0 (a.getD (i + 1) 0)) (a.getD i 0)))) w

/-- The eight 32-bit words of a SHA-256 state. -/
structure Hash8 where
  a : Nat
  b : Nat
  c : Nat
  d : Nat
  e : Nat
  f : Nat
  g : Nat
  h : Nat
deriving DecidableEq, Repr

/-- The SHA-256 initial hash value of FIPS 180-4 (decimal). -/
def sha_init : Hash8 :=
  ⟨1779033703, 3144134277, 1013904242, 2773480762,
   1359893119, 2600822924, 528734635, 1541459225⟩

/-- One SHA-256 compression round, consuming a `(round constant, word)` pair. -/
def compressStep (s : Hash8) (kw : Nat × Nat) : Hash8 :=
  let t1 := add32 (add32 (add32 (add32 s.h (bigSigma1 s.e)) (ch32 s.e s.f s.g)) kw.1) kw.2
  let t2 := add32 (bigSigma0 s.a) (maj32 s.a s.b s.c)
  ⟨add32 t1 t2, s.a, s.b, s.c, add32 s.d t1, s.e, s.f, s.g⟩

/-- Compress one 64-byte block into the running state. -/
def compressBlock (h0 : Hash8) (block : List Nat) : Hash8 :=
  let ws := extendSchedule (toWords block).toArray
  let s := (K256.zip ws.toList).foldl compressStep h0
  ⟨add32 h0.a s.a, add32 h0.b s.b, add32 h0.c s.c, add32 h0.d s.d,
   add32 h0.e s.e, add32 h0.f s.f, add32 h0.g s.g, add32 h0.h s.h⟩

/-- A 32-bit word as 4 big-endian bytes. -/
def wordBytes (w : Nat) : List Nat :=
  [(w >>> 24) % 256, (w >>> 16) % 256, (w >>> 8) % 256, w % 256]

/-- SHA-256 of a byte list, as its 32 digest bytes. -/
def sha256 (msg : List Nat) : List Nat :=
  let fin := (chunks64 (sha_pad msg)).foldl compressBlock sha_init
  wordBytes fin.a ++ wordBytes fin.b ++ wordBytes fin.c ++ wordBytes fin.d ++
  wordBytes fin.e ++ wordBytes fin.f ++ wordBytes fin.g ++ wordBytes fin.h

/-- HMAC-SHA256 (`hmac.new(key, msg, hashlib.sha256)`): keys longer than the
64-byte block are hashed first, then zero-padded to the block size. -/
def hmac_sha256 (key msg : List Nat) : List Nat :=
  let k0 := if 64 < key.length then sha256 key else key
  let kpad := k0 ++ List.replicate (64 - k0.length) 0
  sha256 ((kpad.map (fun b => b ^^^ 0x5c)) ++ sha256 ((kpad.map (fun b => b ^^^ 0x36)) ++ msg))

/-- The sixteen lowercase hex digit characters, as `hexdigest()` emits them. -/
def hexCharsLower : List Char := "0123456789abcdef".data

/-- The sixteen uppercase hex digit characters. -/
def hexCharsUpper : List Char := "0123456789ABCDEF".data

/-- The lowercase hex digit for a nibble. -/
def hexChar (n : Nat) : Char := hexCharsLower.getD (n % 16) '0'

/-- `hexdigest()`: two lowercase hex characters per byte, high nibble first. -/
def hexdigest (bytes : List Nat) : List Char :=
  bytes.foldr (fun b acc => hexChar (b / 16) :: hexChar b :: acc) []

/-- A character is one of the sixteen uppercase hex digits. -/
def isUpperHexChar (c : Char) : Bool := decide (c ∈ hexCharsUpper)

/-- Python's `str(timestamp)` for a natural number, as its ASCII bytes. -/
def natDecimalBytes (n : Nat) : List Nat := (Nat.toDigits 10 n).map Char.toNat

/-- `generate_signature` from `temp_sensor.py` (lines 56–74): HMAC-SHA256 of
`client_id + (access_token if present) + str(timestamp)` keyed by
`client_secret`, hex-encoded and uppercased.  Strings are modelled as their
UTF-8 byte lists; the unused `body` parameter of the Python function is
omitted. -/
def generate_signature (client_id client_secret : List Nat) (timestamp : Nat)
    (access_token : Option (List Nat)) : String :=
  let string_to_sign :=
    client_id ++ (match access_token with | some t => t | none => []) ++
      natDecimalBytes timestamp
  String.mk ((hexdigest (hmac_sha256 client_secret string_to_sign)).map Char.toUpper)

/-- Modelled from the spec: the concatenation
`client_id + (access_token if present) + timestamp_string` that the spec says
is signed. -/
def spec_sign_payload (client_id : List Nat) (timestamp : Nat)
    (access_token : Option (List Nat)) : List Nat :=
  client_id ++ access_token.getD [] ++ natDecimalBytes timestamp

/-! ## Supporting lemmas -/

theorem wordBytes_length (w : Nat) : (wordBytes w).length = 4 := rfl

theorem sha256_length (msg : List Nat) : (sha256 msg).length = 32 := by
  simp [sha256, wordBytes]

theorem hmac_sha256_length (key msg : List Nat) :
    (hmac_sha256 key msg).length = 32 := by
  simp only [hmac_sha256]
  exact sha256_length _

theorem hexdigest_cons (b : Nat) (bs : List Nat) :
    hexdigest (b :: bs) = hexChar (b / 16) :: hexChar b :: hexdigest bs := rfl

theorem hexdigest_length (l : List Nat) :
    (hexdigest l).length = 2 * l.length := by
  induction l with
  | nil => rfl
  | cons y ys ih =>
      rw [hexdigest_cons]
      simp only [List.length_cons, ih]
      ring

theorem hexChar_mem (n : Nat) : hexChar n ∈ hexCharsLower := by
  unfold hexChar
  have h : n % 16 < 16 := Nat.mod_lt _ (by norm_num)
  revert h
  generalize n % 16 = k
  intro h
  interval_cases k <;> decide

theorem toUpper_mem_of_mem_lower {c : Char} (h : c ∈ hexCharsLower) :
    c.toUpper ∈ hexCharsUpper := by
  have hall : hexCharsLower.all (fun x => decide (x.toUpper ∈ hexCharsUpper)) = true := by
    decide
  exact of_decide_eq_true (List.all_eq_true.mp hall c h)

theorem hexdigest_mem {c : Char} {l : List Nat} (h : c ∈ hexdigest l) :
    c ∈ hexCharsLower := by
  induction l with
  | nil => simp [hexdigest] at h
  | cons y ys ih =>
      rw [hexdigest_cons, List.mem_cons, List.mem_cons] at h
      rcases h with h | h | h
      · exact h ▸ hexChar_mem _
      · exact h ▸ hexChar_mem _
      · exact ih h

/-- Modelled from the spec: the two-term temperature correction `var1 + var2`
of §4.3, `var1 = (raw/16384 − T1/1024) * T2` and
`var2 = ((raw/131072 − T1/8192)^2) * T3`. -/
def spec_temp_correction (raw : Nat) (c : TempCalib) : ℚ :=
  ((raw : ℚ) / 16384 - (c.T1 : ℚ) / 1024) * (c.T2 : ℚ)
    + (((raw : ℚ) / 131072 - (c.T1 : ℚ) / 8192) ^ 2) * (c.T3 : ℚ)

/-! ## Claims -/

/-- C1: for every raw humidity code, calibration coefficient tuple and
`t_fine` value, `compensate_humidity` returns a value in `[0, 100]`
inclusive; and when `t_fine - 76800 = 0` (i.e. `t_fine = 76800`) the result
is exactly `0` — a degenerate branch, not an error. -/
theorem humidity_clamped_and_degenerate_zero :
    ∀ (raw_hum : Nat) (c : HumCalib) (t_fine : ℤ),
      (0 ≤ compensate_humidity raw_hum c t_fine
        ∧ compensate_humidity raw_hum c t_fine ≤ 100)
      ∧ compensate_humidity raw_hum c 76800 = 0 := by
  intro raw_hum c t_fine
  refine ⟨⟨?_, ?_⟩, ?_⟩
  · simp only [compensate_humidity]
    split
    · norm_num
    · exact le_max_left 0 _
  · simp only [compensate_humidity]
    split
    · norm_num
    · exact max_le (by norm_num) (min_le_left _ _)
  · simp [compensate_humidity]

/-- C2: `calculate_heat_index` passes the temperature through unchanged below
the 26 °C threshold (in particular at `(25.9, 80)`), and at or above the
threshold returns the fixed NOAA nine-term polynomial (in particular at
`(30, 70)` it agrees with the reference computation to within `1e-9`). -/
theorem heat_index_threshold_and_polynomial :
    (∀ T R : ℚ, T < 26 → calculate_heat_index T R = T)
    ∧ calculate_heat_index (259/10) 80 = 259/10
    ∧ (∀ T R : ℚ, ¬ T < 26 →
        calculate_heat_index T R = noaa_heat_index_reference T R)
    ∧ |calculate_heat_index 30 70 - noaa_heat_index_reference 30 70|
        ≤ 1/1000000000 := by
  refine ⟨?_, ?_, ?_, ?_⟩
  · intro T R h
    simp [calculate_heat_index, if_pos h]
  · norm_num [calculate_heat_index]
  · intro T R h
    simp only [calculate_heat_index, noaa_heat_index_reference, if_neg h]
  · have h : calculate_heat_index 30 70 = noaa_heat_index_reference 30 70 := by
      simp only [calculate_heat_index, noaa_heat_index_reference]
      norm_num
    rw [h, sub_self, abs_zero]
    norm_num

/-- Witness for C2: the below-threshold branch at `(20, 50)` and the
polynomial branch at `(30, 70)`, with the hypotheses discharged concretely. -/
theorem heat_index_threshold_witness :
    calculate_heat_index 20 50 = 20
    ∧ calculate_heat_index 30 70 = noaa_heat_index_reference 30 70 :=
  ⟨heat_index_threshold_and_polynomial.1 20 50 (by norm_num),
   heat_index_threshold_and_polynomial.2.2.1 30 70 (by norm_num)⟩

/-- C3: `compensate_temperature` computes `t_fine` as the two-term correction
`var1 + var2` truncated toward zero (floor for a non-negative sum, ceiling
for a negative one — Python's `int(...)`, not rounding), and returns
`temperature_c = t_fine / 5120`. -/
theorem temperature_truncation (raw_temp : Nat) (c : TempCalib) :
    (compensate_temperature raw_temp c).2 = truncQ (spec_temp_correction raw_temp c)
    ∧ (compensate_temperature raw_temp c).1
        = ((compensate_temperature raw_temp c).2 : ℚ) / 5120
    ∧ (0 ≤ spec_temp_correction raw_temp c →
        (compensate_temperature raw_temp c).2 = ⌊spec_temp_correction raw_temp c⌋)
    ∧ (spec_temp_correction raw_temp c < 0 →
        (compensate_temperature raw_temp c).2 = ⌈spec_temp_correction raw_temp c⌉) := by
  refine ⟨rfl, rfl, ?_, ?_⟩
  · intro h
    show truncQ (spec_temp_correction raw_temp c) = _
    exact truncQ_of_nonneg _ h
  · intro h
    show truncQ (spec_temp_correction raw_temp c) = _
    exact truncQ_of_neg _ h

/-- Witness for C3: the non-negative branch at `raw = 0`, `(T1,T2,T3)=(0,0,0)`
(sum `0`, floor taken) and the negative branch at `raw = 0`,
`(T1,T2,T3)=(-1024,-1,0)` (sum `-1`, ceiling taken). -/
theorem temperature_truncation_witness :
    (compensate_temperature 0 ⟨0, 0, 0⟩).2 = ⌊spec_temp_correction 0 ⟨0, 0, 0⟩⌋
    ∧ (compensate_temperature 0 ⟨-1024, -1, 0⟩).2
        = ⌈spec_temp_correction 0 ⟨-1024, -1, 0⟩⌉ :=
  ⟨(temperature_truncation 0 ⟨0, 0, 0⟩).2.2.1 (by norm_num [spec_temp_correction]),
   (temperature_truncation 0 ⟨-1024, -1, 0⟩).2.2.2 (by norm_num [spec_temp_correction])⟩

/-- C4 counterexample: at temperature `25.46` the command value the code
builds is `int(254.6) = 254`, not `round(254.6) = 255` — the claimed
`value = round(metric * 10)` fails on the code's command list. -/
theorem tuya_round_counterexample :
    build_commands (1273/50) 50 30
      ≠ [("101", round ((1273/50 : ℚ) * 10)),
         ("102", round ((50 : ℚ) * 10)),
         ("103", round ((30 : ℚ) * 10))] := by
  intro h
  have h1 : tuya_value (1273/50) = round ((1273/50 : ℚ) * 10) :=
    congrArg (fun l => (l.getD 0 ("", 0)).2) h
  have h2 : tuya_value (1273/50) = 254 := by
    norm_num [tuya_value, truncQ]
  have h3 : round ((1273/50 : ℚ) * 10) = 255 := by
    norm_num [round_eq]
  rw [h2, h3] at h1
  exact absurd h1 (by norm_num)

/-- C4 (amended): every command payload a `send_to_tuya` call actually POSTs
carries, for temperature, humidity and heat index against data points
`"101"`, `"102"`, `"103"`, the value `int(metric * 10)` — the truncation of
`metric * 10` toward zero (its floor for a non-negative metric), not
`round(metric * 10)`. -/
theorem tuya_fixed_point_truncates (st : TuyaState) (now : ℚ)
    (refresh_result : Option (String × ℚ)) (push_ok : Bool) (t h hi : ℚ) :
    (∀ p ∈ (send_to_tuya st now refresh_result push_ok t h hi).pushed,
      p = [("101", truncQ (t * 10)), ("102", truncQ (h * 10)),
           ("103", truncQ (hi * 10))])
    ∧ (0 ≤ t → truncQ (t * 10) = ⌊t * 10⌋) := by
  constructor
  · intro p hp
    simp only [send_to_tuya] at hp
    split at hp
    · split at hp
      · simp at hp
      · simp only [SyncOutcome.mk.injEq] at hp
        simp only [List.mem_singleton] at hp
        rw [hp]
        rfl
    · simp only [List.mem_singleton] at hp
      rw [hp]
      rfl
  · intro ht
    exact truncQ_of_nonneg _ (by positivity)

/-- Witness for C4 (amended): a push with a fresh token at reading
`(25.46, 50, 30)` POSTs exactly the truncated fixed-point values. -/
theorem tuya_fixed_point_truncates_witness :
    build_commands (1273/50) 50 30
      = [("101", truncQ ((1273/50 : ℚ) * 10)), ("102", truncQ ((50 : ℚ) * 10)),
         ("103", truncQ ((30 : ℚ) * 10))] :=
  (tuya_fixed_point_truncates ⟨none, 0⟩ 0 (some ("tok", 1)) true
      (1273/50) 50 30).1
    (build_commands (1273/50) 50 30)
    (by simp [send_to_tuya])

/-- C5 counterexample: with `e4 = 0x12, e5 = 0x34` the packed decode gives
`dig_H4 = 0x124`, not the claimed `0x123`. -/
theorem h4_unpack_counterexample : dig_H4_decode 0x12 0x34 ≠ 0x123 := by decide

/-- C5 (amended): `read_calibration_data` decodes the packed humidity fields
as `H4 = (e4<<4) | (e5 & 0xF)` and `H5 = (e6<<4) | (e5>>4)` and applies the
two's-complement adjustment to `H6` (`raw - 256` when `raw > 127`); for
`e4=0x12, e5=0x34, e6=0x56` the decode yields `H4 = 0x124` (not `0x123`)
and `H5 = 0x563`. -/
theorem calibration_packed_decode :
    (∀ (dig_T1 : Nat) (dig_T2 dig_T3 : Int) (dig_H1 : Nat) (dig_H2 : Int)
        (dig_H3 : Nat) (e4 e5 e6 h6raw : Nat),
      (read_calibration_data dig_T1 dig_T2 dig_T3 dig_H1 dig_H2 dig_H3
          e4 e5 e6 h6raw).H.H4 = ((e4 <<< 4) ||| (e5 &&& 0x0F) : Nat)
      ∧ (read_calibration_data dig_T1 dig_T2 dig_T3 dig_H1 dig_H2 dig_H3
          e4 e5 e6 h6raw).H.H5 = ((e6 <<< 4) ||| (e5 >>> 4) : Nat)
      ∧ (read_calibration_data dig_T1 dig_T2 dig_T3 dig_H1 dig_H2 dig_H3
          e4 e5 e6 h6raw).H.H6 = dig_H6_adjust h6raw)
    ∧ dig_H4_decode 0x12 0x34 = 0x124
    ∧ dig_H5_decode 0x34 0x56 = 0x563
    ∧ (∀ raw : Nat, 127 < raw → dig_H6_adjust raw = (raw : ℤ) - 256)
    ∧ (∀ raw : Nat, raw ≤ 127 → dig_H6_adjust raw = (raw : ℤ)) := by
  refine ⟨?_, by decide, by decide, ?_, ?_⟩
  · intro dig_T1 dig_T2 dig_T3 dig_H1 dig_H2 dig_H3 e4 e5 e6 h6raw
    exact ⟨rfl, rfl, rfl⟩
  · intro raw hraw
    simp [dig_H6_adjust, hraw]
  · intro raw hraw
    simp [dig_H6_adjust, Nat.not_lt.mpr hraw]

/-- Witness for C5 (amended): the `H6` adjustment at the concrete bytes
`200` (negative case) and `30` (non-negative case). -/
theorem calibration_packed_decode_witness :
    dig_H6_adjust 200 = (200 : ℤ) - 256 ∧ dig_H6_adjust 30 = (30 : ℤ) :=
  ⟨calibration_packed_decode.2.2.2.1 200 (by decide),
   calibration_packed_decode.2.2.2.2 30 (by decide)⟩

/-- C6: a `send_to_tuya` call made with no token held or with the current
time past the stored expiry performs exactly one token refresh before the
push attempt; when that refresh fails it returns `False` (Deferred) having
issued zero push requests, and `last_tuya_update` is not advanced, so the
next cycle retries from scratch. -/
theorem sync_refresh_policy (st : TuyaState) (now : ℚ)
    (refresh_result : Option (String × ℚ)) (push_ok : Bool) (t h hi : ℚ)
    (last : ℚ)
    (hexp : st.access_token = none ∨ now > st.token_expiry) :
    (send_to_tuya st now refresh_result push_ok t h hi).refresh_attempts = 1
    ∧ (refresh_result = none →
        (send_to_tuya st now refresh_result push_ok t h hi).ok = false
        ∧ (send_to_tuya st now refresh_result push_ok t h hi).pushed = []
        ∧ update_last_push last now
            (send_to_tuya st now refresh_result push_ok t h hi).ok = last) := by
  simp only [send_to_tuya, if_pos hexp]
  cases refresh_result with
  | none => simp [update_last_push]
  | some v => simp [update_last_push]

/-- Witness for C6: no token held (`none`), the refresh fails, and
`last_tuya_update = 5` stays `5` with nothing pushed. -/
theorem sync_refresh_policy_witness :
    (send_to_tuya ⟨none, 0⟩ 0 none false 0 0 0).refresh_attempts = 1
    ∧ (send_to_tuya ⟨none, 0⟩ 0 none false 0 0 0).ok = false
    ∧ (send_to_tuya ⟨none, 0⟩ 0 none false 0 0 0).pushed = []
    ∧ update_last_push 5 0 (send_to_tuya ⟨none, 0⟩ 0 none false 0 0 0).ok = 5 := by
  have h := sync_refresh_policy ⟨none, 0⟩ 0 none false 0 0 0 5 (Or.inl rfl)
  exact ⟨h.1, (h.2 rfl).1, (h.2 rfl).2.1, (h.2 rfl).2.2⟩

/-- C7: `generate_signature` is deterministic; the digest is exactly the
uppercased hex encoding of the HMAC-SHA256, keyed by `client_secret`, of the
concatenation `client_id + (access_token if present) + str(timestamp)`; and
it is always 64 uppercase hexadecimal characters long. -/
theorem signature_deterministic_uppercase_hex :
    ∀ (cid secret : List Nat) (ts : Nat) (tok : Option (List Nat)),
      generate_signature cid secret ts tok = generate_signature cid secret ts tok
      ∧ generate_signature cid secret ts tok =
          String.mk ((hexdigest (hmac_sha256 secret
            (spec_sign_payload cid ts tok))).map Char.toUpper)
      ∧ (generate_signature cid secret ts tok).length = 64
      ∧ (generate_signature cid secret ts tok).data.all isUpperHexChar = true := by
  intro cid secret ts tok
  refine ⟨rfl, ?_, ?_, ?_⟩
  · cases tok <;> rfl
  · simp only [generate_signature]
    show ((hexdigest (hmac_sha256 secret _)).map Char.toUpper).length = 64
    rw [List.length_map, hexdigest_length, hmac_sha256_length]
  · simp only [generate_signature]
    show ((hexdigest (hmac_sha256 secret _)).map Char.toUpper).all isUpperHexChar = true
    rw [List.all_eq_true]
    intro x hx
    obtain ⟨c, hc, rfl⟩ := List.mem_map.mp hx
    exact decide_eq_true (toUpper_mem_of_mem_lower (hexdigest_mem hc))

/-- C8: a raw sample whose temperature or humidity equals its sentinel
invalid-reading code (in particular `temp_raw = 0x80000`, and likewise
`hum_raw = 0x8000`) makes the acquisition cycle skip: the shared reading is
left untouched and no new `Reading` is published, with no exception escaping
(the step is a total function). -/
theorem invalid_sentinel_skips :
    (∀ (c : Calib) (press_raw hum_raw : Nat) (cur : Option Reading),
      cycle_step c (0x80000, press_raw, hum_raw) cur = (cur, false))
    ∧ (∀ (c : Calib) (temp_raw press_raw : Nat) (cur : Option Reading),
      cycle_step c (temp_raw, press_raw, 0x8000) cur = (cur, false)) := by
  constructor <;> intro c a b cur <;> simp [cycle_step]

/-- C9: `read_signed_short` interprets the two bytes as an unsigned 16-bit
little-endian value and subtracts 65536 exactly when that value reaches
32768 (so the result is congruent to the unsigned value mod 65536 and lies
in `[-32768, 32768)`); in particular bytes `[0xFF, 0xFF]` decode to `-1` and
`[0x00, 0x80]` decode to `-32768`. -/
theorem signed_short_decode (b0 b1 : Nat) (hb0 : b0 < 256) (hb1 : b1 < 256) :
    (read_signed_short (some (b0, b1)) true % 65536
        = ((b0 + 256 * b1 : Nat) : Int) % 65536
      ∧ -32768 ≤ read_signed_short (some (b0, b1)) true
      ∧ read_signed_short (some (b0, b1)) true < 32768)
    ∧ read_signed_short (some (0xFF, 0xFF)) true = -1
    ∧ read_signed_short (some (0x00, 0x80)) true = -32768 := by
  refine ⟨⟨?_, ?_, ?_⟩, by decide, by decide⟩ <;>
  · simp only [read_signed_short, Nat.shiftLeft_eq]
    norm_num
    split_ifs <;> omega

/-- Witness for C9: the general decode shape at the concrete byte pair
`(0x34, 0x12)` (value `0x1234`), hypotheses discharged by computation. -/
theorem signed_short_decode_witness :
    (read_signed_short (some (0x34, 0x12)) true % 65536
        = ((0x34 + 256 * 0x12 : Nat) : Int) % 65536
      ∧ -32768 ≤ read_signed_short (some (0x34, 0x12)) true
      ∧ read_signed_short (some (0x34, 0x12)) true < 32768)
    ∧ read_signed_short (some (0xFF, 0xFF)) true = -1
    ∧ read_signed_short (some (0x00, 0x80)) true = -32768 :=
  signed_short_decode 0x34 0x12 (by decide) (by decide)

/-- C10: an 8-byte burst read that faults makes `read_raw_data` return the
raw triple `(0, 0, 0)`; `0` is not a sentinel invalid-reading code, so the
acquisition cycle does not skip but publishes the `Reading` compensated from
all-zero raw codes. -/
theorem fault_publishes_zero_reading :
    read_raw_data none = (0, 0, 0)
    ∧ ∀ (c : Calib) (cur : Option Reading),
        cycle_step c (read_raw_data none) cur = (some (process_sample c 0 0), true) := by
  refine ⟨rfl, ?_⟩
  intro c cur
  simp [read_raw_data, cycle_step]

end TempSensor
